import Mathlib

/-!
Verification of the Monad-Trojan trading bot against its specification.

The Python sources are shallowly embedded: pure computations become Lean
functions, effectful operations (chain queries, transaction submission,
database reads and writes) are modelled by passing the observed environment
values explicitly and returning the performed actions as data.  Machine
arithmetic that the program performs on Python ints is modelled on Nat and
Int; Python Decimal and float quantities used only for comparisons and
differences are modelled on Rat; the one float computation whose value the
program submits on chain, the slippage-scaled minimum swap output, is
modelled in exact IEEE-754 binary64 arithmetic over integer
significand-exponent pairs.
-/

namespace MonadTrojan

/-! ## config.py -/

/-- Static allow-list of verified token contracts, keyed by lower-cased
address, from config.VERIFIED_TOKENS. -/
def VERIFIED_TOKENS : List (String × String) := [
  ("0x760afe86e5de5fa0ee542fc7b7b713e1c5425701", "WMON"),
  ("0xf817257fed379853cde0fa4f97ab987181b1e5ea", "USDC"),
  ("0xb2f82d0f38dc453d596ad40a37799446cc89274a", "aprMON"),
  ("0x88b8e2161dedc77ef4ab7585569d2415a1c1055d", "USDT"),
  ("0xe0590015a873bf326bd645c3e1266d4db41c4e6b", "CHOG"),
  ("0x0f0bdedbf0f83cd1ee3974779bcb7315f9808c714", "DAK"),
  ("0xfe140e1dce99be9f4f15d657cd9b7bf622270c50", "YAKI"),
  ("0xaeef2f6b429cb59c9b2d7bb2141ada993e8571c3", "gMON"),
  ("0x3a98250f98dd388c211206983453837c8365bdc1", "shMON"),
  ("0xb5a30b0fdc5ea94a52fdc42e3e9760cb8449fb37", "WETH"),
  ("0xe1d2439b75fb9746e7bc6cb777ae10aa7f7ef9c5", "sMON"),
  ("0x268e4e24e0051ec27b3d27a95977e71ce6875a05", "BEAN"),
  ("0xc8527e96c3cb9522f6e35e95c0a28feab8144f15", "MAD"),
  ("0x89e4a70de5f2ae468b18b6b6300b249387f9adf0", "fMON"),
  ("0xcf5a6076cfa32686c0df13abada2b40dec133f1d", "WBTC"),
  ("0xcc5b42f9d6144dfdfb6fb3987a2a916af902f5f8", "JAI"),
  ("0x5d876d73f4441d5f2438b1a3e2a51771b337f27a", "USDC"),
  ("0xb5481b57ff4e23ea7d2fda70f3137b16d0d99118", "CVE"),
  ("0x6bb379a2056d1304e73012b99338f8f581ee2e18", "WBTC"),
  ("0x0efed4d9fb7863ccc7bb392847c08dcd00fe9be2", "muBOND"),
  ("0x5387c85a4965769f6b0df430638a1388493486f1", "WSOL"),
  ("0x4aa50e8208095d9594d18e8e3008abb811125dce", "MOON"),
  ("0x7fdf92a43c54171f9c278c67088ca43f2079d09b", "LUSD"),
  ("0x5b54153100e40000f6821a7ea8101dc8f5186c2d", "SWETH"),
  ("0x57c914e3240c837ebe87f096e0b4d9a06e3f489b", "monUSD"),
  ("0x38a3321a419b8688f539a600e3c7898a0528737f", "BLZP"),
  ("0xb38bb873cca844b20a9ee448a87af3626a6e1ef5", "MIST"),
  ("0x04a9d9d4aea93f512a4c7b71993915004325ed38", "HEDGE"),
  ("0x786f4aa162457ecdf8fa4657759fa3e86c9394ff", "MAD-LP"),
  ("0xceb564775415b524640d9f688278490a7f3ef9cd", "iceMON"),
  ("0x954a9b30f5aece2c1581e33b16d9ddfcd473a0f8", "KESO"),
  ("0x0e1c9362cdea1d556e5ff89140107126baaf6b09", "aprMON"),
  ("0x199c0da6f291a897302300aaae4f20d139162916", "stMON"),
  ("0xbdd352f339e27e07089039ba80029f9135f6146f", "USDm"),
  ("0xa2426cd97583939e79cfc12ac6e9121e37d0904d", "PINGU"),
  ("0xfa47b094a9666422848f459b54dab88b0e8255e9", "MONKA"),
  ("0x4c632c40c2dcd39c20ee7ecdd6f9743a3c7ffe6b", "TED"),
  ("0x3b428df09c3508d884c30266ac1577f099313cf6", "mamaBTC"),
  ("0xca9a4f46faf5628466583486fd5ace8ac33ce126", "OCTO"),
  ("0x0c0c92fcf37ae2cbcc512e59714cd3a1a1cbc411", "MONDA"),
  ("0x43e52cbc0073caa7c0cf6e64b576ce2d6fb14eb8", "NOM"),
  ("0x8f3a8ae1f1859636e82ca4e30db9fb129b02d825", "suUSD"),
  ("0xc85548e0191cd34be8092b0d42eb4e45eba0d581", "NSTR"),
  ("0x8589a0dd9ecd77b7d70ff76147dce366bf31254e", "gigaETH"),
  ("0x301f38161dd907b7602c91b8e6303ed6992c0d8e", "MONDA-V2"),
  ("0x93e9cae50424c7a4e3c5eceb7855b6dab74bc803", "NAP"),
  ("0x7b55354900d2a7c241785fe178e90a0f7685bf57", "HASH"),
  ("0xcd6b9ff949bd7336f29cc9520ff9fdf200e8b8f6", "AUSD"),
  ("0x2c7d4cc1f7377a2a2b581669b40e5b3383b9a949", "OWL"),
  ("0x8a86d48c867b76ff74a36d3af4d2f1e707b143ed", "RBSD"),
  ("0x11517333d9a65ca3331c3c60bb288fa98013a2ed", "CHOG"),
  ("0xb5e5fa5837304fea6b9ce7e09623e63669ad95fb", "NFT"),
  ("0x3247b7d8100556ce6fc1a4141c117104ef806850", "suETH"),
  ("0xfe5bc01ff7631d495630331e02b4aeaa0bf9840d", "ANGLER"),
  ("0x4961c832469fcbb468c0a794de32faaa30ccd2f6", "suBTC"),
  ("0x8a056df4d7f23121a90aca1ca1364063d43ff3b8", "KEYS"),
  ("0x6ce1890eeadae7db01026f4b294cb8ec5ecc6563", "HALLI"),
  ("0x3552f8254263ea8880c7f7e25cb8dbbd79c0c4b1", "BMONAD"),
  ("0x44369aafdd04cd9609a57ec0237884f45dd80818", "P1"),
  ("0x24d2fd6c5b29eebd5169cc7d6e8014cd65decd73", "TFAT"),
  ("0x92eac40c98b383ea0f0efda747bdac7ac891d300", "RED"),
  ("0xd875ba8e2cad3c0f7e2973277c360c8d2f92b510", "USDX"),
  ("0x4a5c952c446d5c4bba9f4517b473ec1718c5f27a", "BUN"),
  ("0x7a1a3679a5fe97d1da3683c3807a179e26f532b1", "ZF"),
  ("0x6200db750d4a6a2ed84181dbddc5e0029c238cba", "RTMD"),
  ("0xd2707f681ee0c1b5f3a0eb2618628477f31edbce", "KOL"),
  ("0xa998716fdc8da0bd024235dd208a70d257eca763", "APR"),
  ("0x88aac8165144564ee8b8abdc9099992345fbb56a", "NEX"),
  ("0x8d71ccf6bc1358e677e84ddcbe8386ccb36134ea", "$DASH"),
  ("0x0569049e527bb151605eec7bf48cfd55bd2bf4c8", "DAKIMAKURA"),
  ("0x739d4f237623583852db0d102b37996c35f400b5", "Doon"),
  ("0x1b4cb47622705f0f67b6b18bbd1cb1a91fc77d37", "shMON"),
  ("0xb91615806c743c03d7584d7c688dffd2e7077af4", "moonpig"),
  ("0xfaaad2849f35282e96151a4944bd9e0082b60a08", "MNAD"),
  ("0xf793fde80c3a92eb8a6074803ca6976c87b1a90a", "BERZAN"),
  ("0x111f0d8c86c61cc73713720d7899e1b40d8297d5", "LONG"),
  ("0x8a618e0266a87581c5d3d5135afe6ea16bcf5d52", "PN"),
  ("0x1498fcb65fcf4237b57b75fafecdebbdef22e119", "MONFUN"),
  ("0xafb0d64f308423d16ef8833b901dbdd750554438", "NOM"),
  ("0x6c6a73cb3549c8480f08420ee2e5dfaf9d2d4cdb", "LINK")]

/-- High value token symbols, from config.HIGH_VALUE_TOKENS. -/
def HIGH_VALUE_TOKENS : List String :=
  ["MON", "MONAD", "WMON", "USDC", "USDT", "WETH", "WBTC"]

/-- Wrapped MONAD contract address, from config.WETH_ADDRESS. -/
def WETH_ADDRESS : String := "0x760afe86e5de5fa0ee542fc7b7b713e1c5425701"

/-- Chain id of the Monad testnet, from config.CHAIN_ID. -/
def CHAIN_ID : Nat := 10143

/-- Fee parameters of one gas tier, in gwei, from config.GAS_PRICE_MODES. -/
structure GasParams where
  maxFeePerGas : Nat
  maxPriorityFeePerGas : Nat
deriving Repr, DecidableEq

/-- The three gas tiers of config.GAS_PRICE_MODES. -/
def GAS_PRICE_MODES : List (String × GasParams) :=
  [("normal", ⟨100, 2⟩), ("fast", ⟨150, 5⟩), ("very_fast", ⟨200, 10⟩)]

/-- Lookup of a gas tier with the default used by the code,
GAS_PRICE_MODES.get(gas_mode, GAS_PRICE_MODES[normal]). -/
def gasParamsFor (gasMode : String) : GasParams :=
  match (GAS_PRICE_MODES.find? (fun p => p.1 == gasMode)) with
  | some p => p.2
  | none => ⟨100, 2⟩

/-! ## blockchain.py : the verified-token predicate -/

/-- Stablecoin symbols recognized inside BlockchainManager._is_token_verified. -/
def stablecoins : List String := ["USDT", "USDC", "DAI", "BUSD", "FRAX", "R2USD"]

/-- Kernel-computable embedding of the Python str.lower method, acting
characterwise on the underlying character list. -/
def pyLower (s : String) : String := ⟨s.data.map Char.toLower⟩

/-- Kernel-computable embedding of the Python str.endswith method. -/
def pyEndsWith (s suff : String) : Bool := suff.data.isSuffixOf s.data

/-- Kernel-computable embedding of the Python str.startswith method. -/
def pyStartsWith (s start : String) : Bool := start.data.isPrefixOf s.data

/-- Embedding of BlockchainManager._is_token_verified: an address whose
lower-cased form is a key of the allow-list, a symbol of the high-value set,
a stablecoin symbol, or a symbol ending in the suffix .a is verified. -/
def isTokenVerified (tokenAddress symbol : String) : Bool :=
  if VERIFIED_TOKENS.any (fun p => p.1 == pyLower tokenAddress) then true
  else if HIGH_VALUE_TOKENS.contains symbol then true
  else if stablecoins.contains symbol || pyEndsWith symbol ".a" then true
  else false

/-- Abstract model of an authenticated ciphertext blob: the plaintext it
holds and the passphrase its key was derived from (none for the master key). -/
structure CipherBlob where
  plain : String
  derivedFrom : Option String
deriving Repr, DecidableEq

/-- Errors surfaced by the security and database layers. -/
inductive KeyError where
  | emptyInput
  | invalidToken
  | passphraseRequired
  | incorrectPassphrase
deriving Repr, DecidableEq

/-- Model of SecurityManager.encrypt_data: authenticated encryption under
the master key. -/
def encrypt_data (plaintext : String) : CipherBlob := ⟨plaintext, none⟩

/-- Model of SecurityManager.decrypt_data: master-key decryption, failing on
a token that the master key did not produce. -/
def decrypt_data (c : CipherBlob) : Except KeyError String :=
  match c.derivedFrom with
  | none => .ok c.plain
  | some _ => .error .invalidToken

/-- Embedding of security.encrypt_private_key: rejects the empty string,
normalizes the plaintext to carry a 0x prefix, then encrypts it. -/
def encrypt_private_key (privateKey : String) : Except KeyError CipherBlob :=
  if privateKey = "" then .error .emptyInput
  else if pyStartsWith privateKey "0x" then .ok (encrypt_data privateKey)
  else .ok (encrypt_data ("0x" ++ privateKey))

/-- Embedding of security.decrypt_private_key: master-key decryption of a
stored blob. -/
def decrypt_private_key (c : CipherBlob) : Except KeyError String :=
  decrypt_data c

/-- Round trip of the master-key service on a plaintext string. -/
def masterRoundTrip (plaintext : String) : Except KeyError String :=
  match encrypt_private_key plaintext with
  | .ok c => decrypt_private_key c
  | .error e => .error e

/-- Modelled from the spec: security_passphrase.decrypt_with_passphrase is
absent from src; per the spec it re-derives the key from the passphrase and
salt and fails with IncorrectPassphrase when authentication fails, which the
blob model renders as a passphrase mismatch. -/
def decrypt_with_passphrase (c : CipherBlob) (salt passphrase : String) :
    Except KeyError String :=
  match c.derivedFrom with
  | some p => if p = passphrase then .ok c.plain else .error .incorrectPassphrase
  | none => .error .incorrectPassphrase

/-- Stored user row of database.User: wallet address, encrypted signing key
and the optional passphrase salt that selects the encryption posture. -/
structure UserRow where
  wallet_address : String
  encrypted_private_key : CipherBlob
  passphrase_salt : Option String
deriving Repr, DecidableEq

/-- Embedding of DatabaseManager.get_decrypted_private_key: returns none for
a missing user, dispatches on the presence of the stored passphrase salt,
demands a passphrase when a salt exists, and otherwise decrypts under the
master key ignoring any supplied passphrase. -/
def get_decrypted_private_key (user : Option UserRow)
    (passphrase : Option String) : Except KeyError (Option String) :=
  match user with
  | none => .ok none
  | some u =>
    match u.passphrase_salt with
    | some salt =>
      match passphrase with
      | none => .error .passphraseRequired
      | some p => (decrypt_with_passphrase u.encrypted_private_key salt p).map some
    | none => (decrypt_private_key u.encrypted_private_key).map some

/-- One holding as stored in the symbol-keyed balance dictionaries. -/
structure Tok where
  symbol : String
  name : String
  balance : ℚ
  decimals : Nat
  address : String
  verified : Bool
  increase : Option ℚ := none
deriving Repr, DecidableEq

/-- Holdings map: a Python dict from symbol to holding, in insertion order. -/
abbrev TokenMap := List (String × Tok)

/-- Python dict assignment d[k] = v: update in place or append. -/
def dictSet (m : List (String × α)) (k : String) (v : α) :
    List (String × α) :=
  match m with
  | [] => [(k, v)]
  | (k', v') :: rest =>
    if k' = k then (k, v) :: rest else (k', v') :: dictSet rest k v

/-- Python dict lookup d.get(k). -/
def dictLookup (m : List (String × α)) (k : String) : Option α :=
  match m with
  | [] => none
  | (k', v') :: rest => if k' = k then some v' else dictLookup rest k

/-! ## notification_monitor.py : check_user_for_new_tokens

The per-user check is embedded as a pure function of the currently observed
holdings and the stored snapshot, returning the queued notifications and
the snapshot write it performs.  The database accessors get_token_snapshot
and update_token_snapshot are absent from src; per the spec the getter
returns the last persisted holdings map or empty, so the stored snapshot is
passed as a map whose emptiness encodes absence. -/

/-- The notification queued for an increased balance of an already known
holding: the holding annotated with the observed increase (source lines
254 to 258 and 183 to 188). -/
def increaseEntry (old td : Tok) : List Tok :=
  if old.balance < td.balance then
    [{ td with increase := some (td.balance - old.balance) }]
  else []

/-- Notifications contributed by a single entry of the current holdings map
during one pass of the comparison loop: native currency only on a balance
increase, any other symbol skipped unless verified, a verified new symbol on
a positive balance, a verified known symbol on an increase. -/
def notifyAdd (last : TokenMap) (e : String × Tok) : List Tok :=
  if e.1 = "MON" ∨ e.1 = "MONAD" then
    match dictLookup last e.1 with
    | some old => increaseEntry old e.2
    | none => []
  else if e.2.verified = false then []
  else
    match dictLookup last e.1 with
    | none => if 0 < e.2.balance then [e.2] else []
    | some old => increaseEntry old e.2

/-- Result of one per-user check: the queued notifications and the snapshot
write performed, if any. -/
structure CheckResult where
  notifications : List Tok
  snapshotWrite : Option TokenMap
deriving Repr, DecidableEq

/-- Embedding of notification_monitor.check_user_for_new_tokens: an empty
current holdings map returns immediately with no write; an empty stored
snapshot initializes the baseline and emits nothing; otherwise the
comparison loop queues notifications and the snapshot is overwritten with
the current holdings. -/
def check_user_for_new_tokens (current lastSnapshot : TokenMap) :
    CheckResult :=
  if current = [] then ⟨[], none⟩
  else if lastSnapshot = [] then ⟨[], some current⟩
  else ⟨current.foldl (fun acc e => acc ++ notifyAdd lastSnapshot e) [],
        some current⟩

/-- Placeholder holding used only as the default of a guarded list index. -/
def defaultTok : Tok := ⟨"", "", 0, 0, "", false, none⟩

/-- Stable descending insertion by balance: an element is placed before the
head exactly when its balance is at least the head balance, so elements of
equal balance keep their original order, as the stable Python sorted with
reverse=True does. -/
def insertDescBy (t : Tok) : List Tok → List Tok
  | [] => [t]
  | h :: r =>
    if h.balance ≤ t.balance then t :: h :: r else h :: insertDescBy t r

/-- Stable descending sort by balance, embedding
sorted(tokens_to_display, key=balance, reverse=True). -/
def sortDescByBalance : List Tok → List Tok
  | [] => []
  | h :: r => insertDescBy h (sortDescByBalance r)

/-- Embedding of the quantity-basis branch of portfolio.render_portfolio,
source lines 368 to 389: with at least four displayed holdings, the
4th-largest balance is the reference, holdings above ten times it are
collected as outliers and the rest form the percentage base, unless fewer
than three holdings would remain, in which case the exclusion is abandoned
and every displayed holding forms the base.  Returns the pair of the
percentage base and the outlier list. -/
def quantity_allocation (tokensToDisplay : List Tok) : List Tok × List Tok :=
  if 4 ≤ tokensToDisplay.length then
    let sorted := sortDescByBalance tokensToDisplay
    let referenceBalance := (sorted.getD 3 defaultTok).balance
    let outlierThreshold := referenceBalance * 10
    let outlierTokens :=
      tokensToDisplay.filter (fun t => decide (outlierThreshold < t.balance))
    let filteredTokens :=
      tokensToDisplay.filter (fun t => !decide (outlierThreshold < t.balance))
    if filteredTokens.length < 3 then (tokensToDisplay, [])
    else (filteredTokens, outlierTokens)
  else (tokensToDisplay, [])

/-- The five displayed holdings of the outlier-suppression example, with
balances 1000, 900, 800, 10 and 5. -/
def outlierExample : List Tok :=
  [⟨"AAA", "Token A", 1000, 18, "0x00a1", false, none⟩,
   ⟨"BBB", "Token B", 900, 18, "0x00a2", false, none⟩,
   ⟨"CCC", "Token C", 800, 18, "0x00a3", false, none⟩,
   ⟨"DDD", "Token D", 10, 18, "0x00a4", false, none⟩,
   ⟨"EEE", "Token E", 5, 18, "0x00a5", false, none⟩]

/-- The approve transaction built from ERC20_ABI.approve plus the fee, nonce
and chain-id fields of build_transaction. -/
structure ApproveTx where
  spender : String
  amount : Nat
  nonce : Nat
  maxFeePerGas : Nat
  maxPriorityFeePerGas : Nat
  chainId : Nat
deriving Repr, DecidableEq

/-- Outcome of approve_token: the returned value and the submitted
transactions. -/
structure ApproveResult where
  ret : Option String
  submitted : List ApproveTx
deriving Repr, DecidableEq

/-- Embedding of BlockchainManager.approve_token: reads the current
allowance of the spender, returns the ALREADY_APPROVED sentinel and submits
nothing when it already covers the requested amount, and otherwise builds,
signs and submits one approve transaction under the requested gas tier,
returning its hash. -/
def approve_token (txHash : ApproveTx → String) (currentAllowance : Nat)
    (nonce : Nat) (spenderAddress : String) (amount : Nat)
    (gasMode : String) : ApproveResult :=
  if amount ≤ currentAllowance then ⟨some "ALREADY_APPROVED", []⟩
  else
    let gas := gasParamsFor gasMode
    let tx : ApproveTx :=
      ⟨spenderAddress, amount, nonce, gas.maxFeePerGas,
       gas.maxPriorityFeePerGas, CHAIN_ID⟩
    ⟨some (txHash tx), [tx]⟩

/-- Bit length of a natural number, by stripping 256-bit chunks and then
binary search; exact for every number below 2 to the 2304, far beyond any
value arising in a binary64 computation. -/
def bitlen (n : Nat) : Nat :=
  if n = 0 then 0
  else
    let p := [0, 0, 0, 0, 0, 0, 0, 0].foldl
      (fun (p : Nat × Nat) _ =>
        if 2 ^ 256 ≤ p.1 then (p.1 / 2 ^ 256, p.2 + 256) else p) (n, 0)
    let e := [128, 64, 32, 16, 8, 4, 2, 1].foldl
      (fun e k => if 2 ^ (e + k) ≤ p.1 then e + k else e) 0
    p.2 + e + 1

/-- Round the positive real a / b to 53 significant bits, to nearest with
ties to even: returns the significand and the binary exponent.  The guarded
integer quotient keeps 55 extra bits so the rounding decision, including
exact ties, is computed from the exact remainder. -/
def roundSig (a b : Nat) : Nat × Int :=
  if a = 0 ∨ b = 0 then (0, 0)
  else
    let shift := bitlen b + 55
    let A := a * 2 ^ shift
    let Q := A / b
    let R := A % b
    let s := bitlen Q - 53
    let q := Q / 2 ^ s
    let r := Q % 2 ^ s
    let twice := 2 * (r * b + R)
    let half := 2 ^ s * b
    let m := if half < twice then q + 1
             else if twice < half then q
             else if q % 2 = 0 then q else q + 1
    (m, (s : Int) - shift)

/-- An IEEE-754 binary64 value, as the exact integer pair significand and
exponent with value m times 2 to the e (exponents unbounded: every quantity
in the programs float computations is far from overflow and underflow). -/
structure F64 where
  m : Int
  e : Int
deriving Repr, DecidableEq

/-- Round the exact value m times 2 to the e to binary64. -/
def roundF (m e : Int) : F64 :=
  if 0 ≤ m then
    let p := roundSig m.toNat 1
    ⟨(p.1 : Int), p.2 + e⟩
  else
    let p := roundSig (-m).toNat 1
    ⟨-(p.1 : Int), p.2 + e⟩

/-- Correctly rounded binary64 value of the quotient n / d scaled by 2 to
the e. -/
def divRound (n : Int) (d : Nat) (e : Int) : F64 :=
  if 0 ≤ n then
    let p := roundSig n.toNat d
    ⟨(p.1 : Int), p.2 + e⟩
  else
    let p := roundSig (-n).toNat d
    ⟨-(p.1 : Int), p.2 + e⟩

/-- Binary64 multiplication: the exact product, rounded. -/
def fpMulF (x y : F64) : F64 := roundF (x.m * y.m) (x.e + y.e)

/-- Binary64 subtraction: the exact difference on a common exponent,
rounded. -/
def fpSubF (x y : F64) : F64 :=
  let e := min x.e y.e
  roundF (x.m * 2 ^ (x.e - e).toNat - y.m * 2 ^ (y.e - e).toNat) e

/-- Binary64 division, correctly rounded. -/
def fpDivF (x y : F64) : F64 :=
  divRound (if y.m < 0 then -x.m else x.m) y.m.natAbs (x.e - y.e)

/-- The binary64 value nearest a rational: conversion of a Python int (or
of an exact float argument) to double. -/
def fpOfRat (q : ℚ) : F64 := divRound q.num q.den 0

/-- Truncation toward zero, as the Python int constructor applied to a
float. -/
def F64.trunc (x : F64) : Int :=
  if 0 ≤ x.e then x.m * 2 ^ x.e.toNat
  else if 0 ≤ x.m then ((x.m.toNat / 2 ^ (-x.e).toNat : Nat) : Int)
  else -(((-x.m).toNat / 2 ^ (-x.e).toNat : Nat) : Int)

/-- The minimum-output computation of buy_token and sell_token as the
source performs it in Python float arithmetic:
int(expected_output * (1 - slippage / 100)), with the int operand converted
to double, slippage / 100 and the subtraction and product each rounded to
binary64, and the final truncation toward zero.  The slippage argument is
the exact rational value of the float the caller passed. -/
def pyFloatMinOutput (expectedOutput : Nat) (slippage : ℚ) : Int :=
  F64.trunc (fpMulF (roundF (expectedOutput : Int) 0)
    (fpSubF (fpOfRat 1) (fpDivF (fpOfRat slippage) ⟨100, 0⟩)))

/-- The swap transaction built by buy_token and sell_token: either
swapExactETHForTokens or swapExactTokensForETH with its amount arguments,
path, recipient and deadline. -/
structure SwapCall where
  amountInWei : Nat
  expectedOutput : Nat
  minOutput : Int
  path : List String
  recipient : String
  deadline : Nat
deriving Repr, DecidableEq

/-- Embedding of BlockchainManager.buy_token: quotes getAmountsOut along
the wrapped-native-to-token path, takes the last quoted amount as the
expected output, applies the slippage tolerance in Python float arithmetic
truncating to an integer, and sets the deadline 300 seconds after the
current time. -/
def buy_token (quote : Nat → List String → List Nat) (now : Nat)
    (tokenAddress walletAddress : String) (amountInWei : Nat)
    (slippage : ℚ) : SwapCall :=
  let path := [WETH_ADDRESS, tokenAddress]
  let amountsOut := quote amountInWei path
  let expectedOutput := amountsOut.getLastD 0
  let minOutput := pyFloatMinOutput expectedOutput slippage
  { amountInWei := amountInWei, expectedOutput := expectedOutput,
    minOutput := minOutput, path := path, recipient := walletAddress,
    deadline := now + 300 }

/-- Embedding of BlockchainManager.sell_token on its swap-building path:
quotes getAmountsOut along the token-to-wrapped-native path, applies the
slippage tolerance in Python float arithmetic, and sets the deadline 20
minutes after the current time. -/
def sell_token (quote : Nat → List String → List Nat) (now : Nat)
    (tokenAddress walletAddress : String) (amountInWei : Nat)
    (slippage : ℚ) : SwapCall :=
  let path := [tokenAddress, WETH_ADDRESS]
  let amountsOut := quote amountInWei path
  let expectedOutput := amountsOut.getLastD 0
  let minOutput := pyFloatMinOutput expectedOutput slippage
  { amountInWei := amountInWei, expectedOutput := expectedOutput,
    minOutput := minOutput, path := path, recipient := walletAddress,
    deadline := now + 60 * 20 }

/-- One token as reported by the Alchemy helper script or resolved from a
history address: symbol, display name, balance, decimals and contract
address. -/
structure AlcTok where
  symbol : String
  name : String
  balance : ℚ
  decimals : Nat
  address : String
deriving Repr, DecidableEq

/-- The native-balance entry inserted under the MON key. -/
def monRecord (nativeBalance : ℚ) : Tok :=
  ⟨"MON", "Monad", nativeBalance, 18,
   "0x0000000000000000000000000000000000000000", true, none⟩

/-- The holdings entry built for an Alchemy-reported token, tagged with the
verified-token predicate. -/
def alchemyRecord (t : AlcTok) : Tok :=
  ⟨t.symbol, t.name, t.balance, t.decimals, t.address,
   isTokenVerified t.address t.symbol, none⟩

/-- The holdings entry built for a history token, assumed verified. -/
def historyRecord (t : AlcTok) : Tok :=
  ⟨t.symbol, t.name, t.balance, t.decimals, t.address, true, none⟩

/-- Embedding of the primary tier of BlockchainManager.get_wallet_all_tokens
(source lines 244 to 277): a positive native balance enters under the MON
key, then every reported token with positive balance is assigned into the
dict under its symbol. -/
def get_wallet_all_tokens (nativeBalance : ℚ) (tokens : List AlcTok) :
    TokenMap :=
  let base : TokenMap :=
    if 0 < nativeBalance then dictSet [] "MON" (monRecord nativeBalance)
    else []
  tokens.foldl
    (fun m t =>
      if 0 < t.balance then dictSet m t.symbol (alchemyRecord t) else m)
    base

/-- Embedding of BlockchainManager.get_tokens_from_history: a non-zero
native balance enters under the MON key, then each history address whose
info resolves and whose balance is positive is assigned into the dict under
its symbol, tagged verified. -/
def get_tokens_from_history (nativeBalance : ℚ)
    (resolved : List (Option AlcTok)) : TokenMap :=
  let base : TokenMap :=
    if nativeBalance ≠ 0 then dictSet [] "MON" (monRecord nativeBalance)
    else []
  resolved.foldl
    (fun m o =>
      match o with
      | none => m
      | some t =>
        if 0 < t.balance then dictSet m t.symbol (historyRecord t) else m)
    base

/-- The keys of a holdings map, in order. -/
def mapKeys (m : List (String × α)) : List String := m.map Prod.fst

/-! ## Theorems -/

/-- C1: the verified-token predicate returns true exactly when the lower-cased
address is an allow-list key, or the symbol is high-value, or the symbol is a
recognized stablecoin ticker, or the symbol ends with the suffix .a; in
particular an allow-listed address is verified regardless of symbol, symbol
USDT is verified at an unlisted address, symbol XYZ.a is verified, and symbol
RANDOM at an unlisted address is not verified. -/
theorem verified_token_predicate_characterization :
    (∀ a s : String, isTokenVerified a s = true ↔
      (VERIFIED_TOKENS.any (fun p => p.1 == pyLower a) = true ∨
       HIGH_VALUE_TOKENS.contains s = true ∨
       stablecoins.contains s = true ∨ pyEndsWith s ".a" = true)) ∧
    (∀ s : String,
      isTokenVerified "0x760afe86e5de5fa0ee542fc7b7b713e1c5425701" s = true) ∧
    isTokenVerified "0x0000000000000000000000000000000000000001" "USDT" = true ∧
    isTokenVerified "0x0000000000000000000000000000000000000001" "XYZ.a" = true ∧
    isTokenVerified "0x0000000000000000000000000000000000000001" "RANDOM" = false := by
  refine ⟨?_, ?_, by decide, by decide, by decide⟩
  · intro a s
    unfold isTokenVerified
    split_ifs with h1 h2 h3 <;> simp_all
  · intro s
    have h : VERIFIED_TOKENS.any
        (fun p => p.1 == pyLower "0x760afe86e5de5fa0ee542fc7b7b713e1c5425701")
        = true := by decide
    simp [isTokenVerified, h]

/-! ## src/security.py and src/database.py : key encryption and retrieval

The cryptography.fernet library is external to the repository.  A Fernet
token is modelled as an abstract authenticated ciphertext recording the
encrypted plaintext and, when the passphrase service produced it, the
passphrase it was derived from; decryption under the wrong service or the
wrong passphrase fails, which is exactly the round-trip contract the library
documents and the code relies on. -/

/-- C2 counterexample: the nonempty plaintext ab round-trips to 0xab, not to
itself, because encrypt_private_key first normalizes the plaintext to carry
a 0x prefix. -/
theorem master_round_trip_counterexample :
    ("ab" : String) ≠ "" ∧
    masterRoundTrip "ab" = .ok "0xab" ∧
    masterRoundTrip "ab" ≠ .ok "ab" := by
  have h : masterRoundTrip "ab" = .ok "0xab" := by
    unfold masterRoundTrip encrypt_private_key
    have h1 : ¬("ab" = "") := by decide
    have h2 : pyStartsWith "ab" "0x" = false := by decide
    have h3 : ("0x" ++ "ab" : String) = "0xab" := by decide
    simp [h1, h2, h3, decrypt_private_key, decrypt_data, encrypt_data]
  refine ⟨by decide, h, ?_⟩
  rw [h]
  intro hc
  exact absurd (Except.ok.inj hc) (by decide)

/-- C2 amended: for every non-empty plaintext, the master-key round trip
returns the 0x-normalized plaintext; hence it returns the plaintext itself
exactly on inputs that already carry the 0x prefix. -/
theorem master_round_trip_normalizes (p : String) (h : p ≠ "") :
    masterRoundTrip p = .ok (if pyStartsWith p "0x" then p else "0x" ++ p) ∧
    (pyStartsWith p "0x" = true → masterRoundTrip p = .ok p) := by
  have hbase : masterRoundTrip p
      = .ok (if pyStartsWith p "0x" then p else "0x" ++ p) := by
    unfold masterRoundTrip encrypt_private_key
    rw [if_neg h]
    by_cases hs : pyStartsWith p "0x" <;>
      simp [hs, decrypt_private_key, decrypt_data, encrypt_data]
  refine ⟨hbase, fun hs => ?_⟩
  rw [hbase, if_pos hs]

/-- C2 witness: the round trip at the concrete 0x-prefixed input 0xabc. -/
theorem master_round_trip_normalizes_witness :
    masterRoundTrip "0xabc" = .ok "0xabc" :=
  (master_round_trip_normalizes "0xabc" (by decide)).2 (by decide)

/-- C4: retrieving the decrypted signing key fails with PassphraseRequired
when the stored row has a salt and no passphrase is supplied, fails with
IncorrectPassphrase when a wrong passphrase is supplied against a salted
row, and with no salt stored always takes the master-key path whatever
passphrase argument is supplied. -/
theorem get_decrypted_key_dispatch (u : UserRow) (salt : String) :
    (u.passphrase_salt = some salt →
      get_decrypted_private_key (some u) none = .error .passphraseRequired) ∧
    (∀ right wrong : String, u.passphrase_salt = some salt →
      u.encrypted_private_key.derivedFrom = some right → wrong ≠ right →
      get_decrypted_private_key (some u) (some wrong)
        = .error .incorrectPassphrase) ∧
    (u.passphrase_salt = none → ∀ q : Option String,
      get_decrypted_private_key (some u) q
        = (decrypt_private_key u.encrypted_private_key).map some) := by
  refine ⟨fun hsalt => ?_, fun right wrong hsalt hder hne => ?_, fun hsalt q => ?_⟩
  · simp [get_decrypted_private_key, hsalt]
  · simp only [get_decrypted_private_key, hsalt, decrypt_with_passphrase, hder]
    rw [if_neg (Ne.symm hne)]
    rfl
  · cases q <;> simp [get_decrypted_private_key, hsalt]

/-- C4 witness: the dispatch evaluated on a concrete passphrase-salted user
row, with no passphrase and with a wrong passphrase. -/
theorem get_decrypted_key_dispatch_witness :
    get_decrypted_private_key
      (some ⟨"0xWallet", ⟨"0xkey", some "pw"⟩, some "salt"⟩) none
      = .error .passphraseRequired ∧
    get_decrypted_private_key
      (some ⟨"0xWallet", ⟨"0xkey", some "pw"⟩, some "salt"⟩) (some "bad")
      = .error .incorrectPassphrase :=
  ⟨(get_decrypted_key_dispatch ⟨"0xWallet", ⟨"0xkey", some "pw"⟩, some "salt"⟩
      "salt").1 rfl,
   (get_decrypted_key_dispatch ⟨"0xWallet", ⟨"0xkey", some "pw"⟩, some "salt"⟩
      "salt").2.1 "pw" "bad" rfl rfl (by decide)⟩

/-! ## Holdings maps

Python dict values keyed by token symbol are modelled as association lists
in insertion order; assignment updates an existing key in place and appends
a fresh key at the end, exactly as a Python dict does. -/

/-- Every notification contributed by one entry carries the symbol and the
verified flag of that entry, and arises only from the native symbols or
from a verified holding. -/
theorem mem_notifyAdd {last : TokenMap} {e : String × Tok} {t : Tok}
    (ht : t ∈ notifyAdd last e) :
    t.symbol = e.2.symbol ∧ t.verified = e.2.verified ∧
      (e.1 = "MON" ∨ e.1 = "MONAD" ∨ e.2.verified = true) := by
  unfold notifyAdd increaseEntry at ht
  repeat' split at ht
  all_goals simp_all
  all_goals tauto

/-- Membership in the comparison-loop fold decomposes into the accumulator
and the per-entry contributions. -/
theorem mem_notify_foldl {last : TokenMap} :
    ∀ (l : List (String × Tok)) (acc : List Tok) (t : Tok),
      t ∈ l.foldl (fun a e => a ++ notifyAdd last e) acc →
      t ∈ acc ∨ ∃ e ∈ l, t ∈ notifyAdd last e := by
  intro l
  induction l with
  | nil => intro acc t hmem; exact .inl hmem
  | cons e rest ih =>
    intro acc t hmem
    rcases ih (acc ++ notifyAdd last e) t hmem with hacc | ⟨e2, he2, hin⟩
    · rcases List.mem_append.mp hacc with h | h
      · exact .inl h
      · exact .inr ⟨e, List.mem_cons_self _ _, h⟩
    · exact .inr ⟨e2, List.mem_cons_of_mem _ he2, hin⟩

/-- C8 counterexample: with no prior snapshot and empty current holdings the
check returns before the snapshot write, so no baseline is persisted, against
the claim that the current holdings are persisted regardless of what they
are. -/
theorem first_run_empty_holdings_counterexample :
    (check_user_for_new_tokens [] []).notifications = [] ∧
    (check_user_for_new_tokens [] []).snapshotWrite = none ∧
    (check_user_for_new_tokens [] []).snapshotWrite ≠ some [] := by
  refine ⟨rfl, rfl, ?_⟩
  intro h
  simp [check_user_for_new_tokens] at h

/-- C8 amended: on a first run with non-empty current holdings, zero
notifications are emitted and the current holdings are persisted as the
baseline snapshot; with empty current holdings the check returns early and
persists nothing. -/
theorem first_run_suppression (current : TokenMap) :
    (current ≠ [] →
      check_user_for_new_tokens current [] = ⟨[], some current⟩) ∧
    (current = [] →
      check_user_for_new_tokens current [] = ⟨[], none⟩) := by
  constructor
  · intro h
    simp [check_user_for_new_tokens, h]
  · intro h
    simp [check_user_for_new_tokens, h]

/-- C8 witness: the first run evaluated on a concrete one-token holdings
map. -/
theorem first_run_suppression_witness :
    check_user_for_new_tokens
      [("USDC", ⟨"USDC", "USD Coin", 5, 6,
        "0xf817257fed379853cde0fa4f97ab987181b1e5ea", true, none⟩)] []
      = ⟨[], some [("USDC", ⟨"USDC", "USD Coin", 5, 6,
        "0xf817257fed379853cde0fa4f97ab987181b1e5ea", true, none⟩)]⟩ :=
  (first_run_suppression
    [("USDC", ⟨"USDC", "USD Coin", 5, 6,
      "0xf817257fed379853cde0fa4f97ab987181b1e5ea", true, none⟩)]).1
    (by simp)

/-- C9: a holding whose entry is keyed by a non-native symbol and whose
verified flag is false never appears among the queued notifications of a
check cycle. -/
theorem unverified_token_never_notified (current lastSnapshot : TokenMap)
    (t : Tok)
    (hwf : ∀ e ∈ current, (e : String × Tok).2.symbol = e.1)
    (hmem : t ∈ (check_user_for_new_tokens current lastSnapshot).notifications)
    (hm1 : t.symbol ≠ "MON") (hm2 : t.symbol ≠ "MONAD") :
    t.verified = true := by
  unfold check_user_for_new_tokens at hmem
  by_cases hc : current = []
  · simp [hc] at hmem
  · rw [if_neg hc] at hmem
    by_cases hl : lastSnapshot = []
    · simp [hl] at hmem
    · rw [if_neg hl] at hmem
      simp only at hmem
      rcases mem_notify_foldl current [] t hmem with h | ⟨e, he, hin⟩
      · simp at h
      · rcases mem_notifyAdd hin with ⟨hsym, hver, hnat⟩
        have hkey : e.2.symbol = e.1 := hwf e he
        rcases hnat with h1 | h1 | h1
        · exact absurd (hsym.trans (hkey.trans h1)) hm1
        · exact absurd (hsym.trans (hkey.trans h1)) hm2
        · exact hver.trans h1

/-- C9 witness: the membership fact evaluated on a concrete cycle in which a
new verified token is notified. -/
theorem unverified_token_never_notified_witness :
    (⟨"USDC", "USD Coin", 5, 6,
      "0xf817257fed379853cde0fa4f97ab987181b1e5ea", true, none⟩ : Tok).verified
      = true :=
  unverified_token_never_notified
    [("USDC", ⟨"USDC", "USD Coin", 5, 6,
      "0xf817257fed379853cde0fa4f97ab987181b1e5ea", true, none⟩)]
    [("MON", ⟨"MON", "Monad", 1, 18,
      "0x0000000000000000000000000000000000000000", true, none⟩)]
    ⟨"USDC", "USD Coin", 5, 6,
      "0xf817257fed379853cde0fa4f97ab987181b1e5ea", true, none⟩
    (by decide) (by decide) (by decide) (by decide)

/-! ## portfolio.py : quantity-basis outlier suppression in render_portfolio -/

/-- C3 counterexample: on the balances 1000, 900, 800, 10, 5 the allocation
excludes nobody: the outlier list is empty and all five holdings form the
percentage base, against the claimed exclusion of the three largest. -/
theorem outlier_example_counterexample :
    (quantity_allocation outlierExample).2 = [] ∧
    (quantity_allocation outlierExample).1 = outlierExample ∧
    (quantity_allocation outlierExample).1.length = 5 := by
  have h : quantity_allocation outlierExample = (outlierExample, []) := by
    norm_num [quantity_allocation, outlierExample, sortDescByBalance,
      insertDescBy, defaultTok, List.filter, List.getD, List.get?]
  refine ⟨by rw [h], by rw [h], by rw [h]; rfl⟩

/-- C3 amended: on the balances 1000, 900, 800, 10, 5 the 4th-largest
balance is 10 and the threshold 100; the three holdings with balances 1000,
900 and 800 exceed the threshold, but their exclusion would leave only two
holdings, fewer than three, so it is abandoned: no holding is flagged an
outlier and all five form the percentage base. -/
theorem outlier_exclusion_abandoned :
    ((sortDescByBalance outlierExample).getD 3 defaultTok).balance = 10 ∧
    (outlierExample.filter (fun t => decide ((10 : ℚ) * 10 < t.balance))).map
        (fun t => t.balance) = [1000, 900, 800] ∧
    (outlierExample.filter
        (fun t => !decide ((10 : ℚ) * 10 < t.balance))).length = 2 ∧
    quantity_allocation outlierExample = (outlierExample, []) := by
  refine ⟨?_, ?_, ?_, ?_⟩ <;>
    norm_num [quantity_allocation, outlierExample, sortDescByBalance,
      insertDescBy, defaultTok, List.filter, List.getD, List.get?]

/-! ## blockchain.py : approve_token, buy_token, sell_token

Chain interaction is modelled by passing the values the code observes (the
current allowance, nonce, quote function and clock) and returning the
transaction the code builds.  Signing and hashing live in the signer; the
hash of a submitted transaction is an arbitrary function of it. -/

/-- C5: approve_token returns the ALREADY_APPROVED sentinel and submits no
transaction when the current allowance covers the requested amount, and
otherwise submits exactly one approve transaction and returns its hash. -/
theorem approve_token_short_circuit (txHash : ApproveTx → String)
    (currentAllowance nonce amount : Nat) (spenderAddress gasMode : String) :
    (amount ≤ currentAllowance →
      approve_token txHash currentAllowance nonce spenderAddress amount
        gasMode = ⟨some "ALREADY_APPROVED", []⟩) ∧
    (currentAllowance < amount → ∃ tx : ApproveTx,
      (approve_token txHash currentAllowance nonce spenderAddress amount
        gasMode).submitted = [tx] ∧
      (approve_token txHash currentAllowance nonce spenderAddress amount
        gasMode).ret = some (txHash tx)) := by
  constructor
  · intro h
    simp [approve_token, h]
  · intro h
    have hc : ¬ (amount ≤ currentAllowance) := Nat.not_le.mpr h
    exact ⟨⟨spenderAddress, amount, nonce, (gasParamsFor gasMode).maxFeePerGas,
        (gasParamsFor gasMode).maxPriorityFeePerGas, CHAIN_ID⟩,
      by simp [approve_token, hc], by simp [approve_token, hc]⟩

/-- C5 witness: both branches evaluated at concrete allowances 5 and 1
against a requested amount of 3. -/
theorem approve_token_short_circuit_witness :
    approve_token (fun _ => "0xhash") 5 0 "0xRouter" 3 "normal"
      = ⟨some "ALREADY_APPROVED", []⟩ ∧
    ∃ tx : ApproveTx,
      (approve_token (fun _ => "0xhash") 1 0 "0xRouter" 3 "normal").submitted
        = [tx] ∧
      (approve_token (fun _ => "0xhash") 1 0 "0xRouter" 3 "normal").ret
        = some ((fun _ => "0xhash") tx) :=
  ⟨(approve_token_short_circuit (fun _ => "0xhash") 5 0 3 "0xRouter"
      "normal").1 (by decide),
   (approve_token_short_circuit (fun _ => "0xhash") 1 0 3 "0xRouter"
      "normal").2 (by decide)⟩

/-- C6 counterexample: at the configured slippage 5 and the realistic
expected output 123456789012345678 base units, the code computes the
minimum output in binary64 float arithmetic as 117283949561728384, while
the floor of the exact product is 117283949561728394, so the minimum
output is not the floor of expected times one minus the slippage
percentage. -/
theorem buy_token_min_output_float_counterexample :
    (buy_token (fun _ _ => [0, 123456789012345678]) 0 "0xToken" "0xWallet"
        7 5).minOutput = 117283949561728384 ∧
    ⌊(123456789012345678 : ℚ) * (1 - 5 / 100)⌋ = 117283949561728394 ∧
    (buy_token (fun _ _ => [0, 123456789012345678]) 0 "0xToken" "0xWallet"
        7 5).minOutput
      ≠ ⌊(123456789012345678 : ℚ) * (1 - 5 / 100)⌋ := by
  have h1 : (buy_token (fun _ _ => [0, 123456789012345678]) 0 "0xToken"
      "0xWallet" 7 5).minOutput = 117283949561728384 := by decide
  have h2 : ⌊(123456789012345678 : ℚ) * (1 - 5 / 100)⌋
      = 117283949561728394 := by
    apply Int.floor_eq_iff.mpr
    constructor <;> norm_num
  refine ⟨h1, h2, ?_⟩
  rw [h1, h2]
  decide

/-- C6 amended: the expected output of buy_token is the last element of the
getAmountsOut quote along the wrapped-native-to-token path, and the minimum
output is int(expected_output * (1 - slippage / 100)) evaluated in IEEE-754
binary64 float arithmetic; at slippage 5 and expected output 1000 this
gives 950, equal there to the floor of the exact product. -/
theorem buy_token_min_output (quote : Nat → List String → List Nat)
    (now amountInWei : Nat) (tokenAddress walletAddress : String)
    (slippage : ℚ) :
    ((buy_token quote now tokenAddress walletAddress amountInWei
        slippage).expectedOutput
      = (quote amountInWei [WETH_ADDRESS, tokenAddress]).getLastD 0 ∧
    (buy_token quote now tokenAddress walletAddress amountInWei
        slippage).minOutput
      = pyFloatMinOutput
          ((quote amountInWei [WETH_ADDRESS, tokenAddress]).getLastD 0)
          slippage) ∧
    (buy_token (fun _ _ => [0, 1000]) 0 "0xToken" "0xWallet" 7 5).minOutput
      = 950 ∧
    (950 : ℤ) = ⌊(1000 : ℚ) * (1 - 5 / 100)⌋ := by
  refine ⟨⟨rfl, rfl⟩, by decide, ?_⟩
  have h : ⌊(1000 : ℚ) * (1 - 5 / 100)⌋ = 950 := by
    apply Int.floor_eq_iff.mpr
    constructor <;> norm_num
  rw [h]

/-- C7: buy_token sets its deadline 300 seconds and sell_token 1200 seconds
after the current time, and both deadlines are strictly after it. -/
theorem swap_deadlines (quote : Nat → List String → List Nat)
    (now amountInWei : Nat) (tokenAddress walletAddress : String)
    (slippage : ℚ) :
    (buy_token quote now tokenAddress walletAddress amountInWei
        slippage).deadline = now + 300 ∧
    (sell_token quote now tokenAddress walletAddress amountInWei
        slippage).deadline = now + 1200 ∧
    now < (buy_token quote now tokenAddress walletAddress amountInWei
        slippage).deadline ∧
    now < (sell_token quote now tokenAddress walletAddress amountInWei
        slippage).deadline := by
  refine ⟨rfl, rfl, ?_, ?_⟩ <;> simp [buy_token, sell_token]

/-! ## blockchain.py : get_wallet_all_tokens and get_tokens_from_history

The primary (Alchemy) tier of get_wallet_all_tokens and the history-based
fallback get_tokens_from_history both build a dict keyed by token symbol.
The external data they consume (the Alchemy token list, and the resolved
info and balance of each history address) is passed in explicitly. -/

/-- Dict assignment leaves the key list unchanged on an existing key and
appends the key otherwise. -/
theorem mapKeys_dictSet (m : List (String × α)) (k : String) (v : α) :
    mapKeys (dictSet m k v) =
      if k ∈ mapKeys m then mapKeys m else mapKeys m ++ [k] := by
  induction m with
  | nil => simp [mapKeys, dictSet]
  | cons p rest ih =>
    obtain ⟨k', v'⟩ := p
    by_cases h : k' = k
    · simp [mapKeys, dictSet, h]
    · have hne : ¬ (k = k') := fun hc => h hc.symm
      by_cases hmem : k ∈ mapKeys rest
      · simp_all [mapKeys, dictSet]
      · simp_all [mapKeys, dictSet]

/-- Dict assignment preserves distinctness of the keys. -/
theorem nodup_mapKeys_dictSet {m : List (String × α)} (k : String) (v : α)
    (h : (mapKeys m).Nodup) : (mapKeys (dictSet m k v)).Nodup := by
  rw [mapKeys_dictSet]
  split
  · exact h
  · rename_i hk
    simp [List.nodup_append, h, hk]

/-- The Alchemy fold preserves distinctness of the keys. -/
theorem nodup_alchemy_foldl (tokens : List AlcTok) :
    ∀ (base : TokenMap), (mapKeys base).Nodup →
      (mapKeys (tokens.foldl
        (fun m t =>
          if 0 < t.balance then dictSet m t.symbol (alchemyRecord t) else m)
        base)).Nodup := by
  induction tokens with
  | nil => intro base h; exact h
  | cons t rest ih =>
    intro base h
    refine ih _ ?_
    by_cases hb : 0 < t.balance
    · simpa [hb] using nodup_mapKeys_dictSet t.symbol (alchemyRecord t) h
    · simpa [hb] using h

/-- The history fold preserves distinctness of the keys. -/
theorem nodup_history_foldl (resolved : List (Option AlcTok)) :
    ∀ (base : TokenMap), (mapKeys base).Nodup →
      (mapKeys (resolved.foldl
        (fun m o =>
          match o with
          | none => m
          | some t =>
            if 0 < t.balance then dictSet m t.symbol (historyRecord t)
            else m)
        base)).Nodup := by
  induction resolved with
  | nil => intro base h; exact h
  | cons o rest ih =>
    intro base h
    refine ih _ ?_
    match o with
    | none => exact h
    | some t =>
      by_cases hb : 0 < t.balance
      · simpa [hb] using nodup_mapKeys_dictSet t.symbol (historyRecord t) h
      · simpa [hb] using h

/-- C10: both balance-enumeration entry points return maps keyed by symbol
with pairwise distinct keys, hence at most one entry per symbol; and when
two tokens at distinct contract addresses share a symbol, the later one
silently overwrites the earlier, leaving only the later address in the
result. -/
theorem holdings_maps_symbol_keyed :
    (∀ (nativeBalance : ℚ) (tokens : List AlcTok),
      (mapKeys (get_wallet_all_tokens nativeBalance tokens)).Nodup) ∧
    (∀ (nativeBalance : ℚ) (resolved : List (Option AlcTok)),
      (mapKeys (get_tokens_from_history nativeBalance resolved)).Nodup) ∧
    get_wallet_all_tokens 0
      [⟨"DUP", "First", 1, 18, "0x00000000000000000000000000000000000000a1"⟩,
       ⟨"DUP", "Second", 2, 18, "0x00000000000000000000000000000000000000b2"⟩]
      = [("DUP", alchemyRecord
          ⟨"DUP", "Second", 2, 18,
           "0x00000000000000000000000000000000000000b2"⟩)] := by
  refine ⟨?_, ?_, ?_⟩
  · intro nativeBalance tokens
    apply nodup_alchemy_foldl
    by_cases h : 0 < nativeBalance <;> simp [h, mapKeys, dictSet]
  · intro nativeBalance resolved
    apply nodup_history_foldl
    by_cases h : nativeBalance ≠ 0 <;> simp [h, mapKeys, dictSet]
  · decide

end MonadTrojan
